import Mathlib

/-!
Verification of the one-qubit superposition demonstrator (`streamlit_app.py`).

The development has two parts:

* A shallow embedding of the build → execute → render → persist pipeline
  (`ensure_outdir`, `save_fig`, `draw_circuit_text`, `run_and_plot_counts`,
  the per-tab circuit builders, and the UI input ranges).  External effects
  (the Aer simulator call, `plot_histogram`/`st.pyplot`, `Path.mkdir`,
  `Figure.savefig`, `QuantumCircuit.draw`) are modelled by `Except`-valued
  outcomes supplied as inputs, so that the Python `try`/`except`/`finally`
  structure is reflected exactly: an effect the code does not guard
  propagates as `Except.error`, a guarded one is turned into a warning
  event.

* An exact complex-amplitude model of the single-qubit gates the app uses
  (`H`, `RZ(φ)`) acting on pairs of complex amplitudes, for the theoretical
  probability and expectation-value claims.
-/

namespace SuperposApp

/-- Errors raised by external library calls (Python exception messages). -/
abbrev Err := String

/-- A counts dictionary: outcome bit-string → observed frequency,
as returned by `result.get_counts()`. -/
abbrev Counts := List (String × Nat)

/-- Observable user-visible side effects of one pipeline run, in order:
`st.warning`, `st.info`, `plt.close(fig)`, `st.code(...)`, `st.pyplot(fig)`. -/
inductive Event where
  | warn (msg : Err)
  | info (msg : String)
  | closeFig
  | showCode (s : String)
  | pyplot
  deriving DecidableEq, Repr

/-- Python truthiness of the `base_name: str | None` argument as used in
`if SAVE_PNGS and base_name:` — `None` and the empty string are falsy. -/
def truthy : Option String → Bool
  | none => false
  | some s => s != ""

/-- `ensure_outdir(directory)`: `directory.mkdir(parents=True, exist_ok=True)`
inside `try`, with `st.warning(...)` on any exception.  The outcome of the
`mkdir` call is the input; the function never lets the exception escape. -/
def ensure_outdir (mkdirResult : Except Err Unit) : List Event :=
  match mkdirResult with
  | Except.ok _ => []
  | Except.error e => [Event.warn e]

/-- `save_fig(fig, base_name)`: ensure the output directory, build the file
name `{STAMP}_{base_name}.png` under `OUTPUT_DIR`, then
`try: fig.savefig(...); st.info(...) except: st.warning(...) finally: plt.close(fig)`.
Returns the file list after the call and the emitted events; an
`Except.error` result would mean an exception escaped `save_fig`. -/
def save_fig (mkdirResult saveResult : Except Err Unit) (outdir stamp base : String)
    (files : List String) : Except Err (List String × List Event) :=
  let ev1 := ensure_outdir mkdirResult
  let fname := outdir ++ "/" ++ stamp ++ "_" ++ base ++ ".png"
  match saveResult with
  | Except.ok _ => Except.ok (files ++ [fname], ev1 ++ [Event.info fname, Event.closeFig])
  | Except.error e => Except.ok (files, ev1 ++ [Event.warn e, Event.closeFig])

/-- The fixed placeholder `draw_circuit_text` returns when drawing fails. -/
def placeholderDrawing : String := "(No fue posible dibujar el circuito en texto)"

/-- `draw_circuit_text(qc)`: `try: return qc.draw(output="text").__str__()
except: return placeholder`.  The outcome of `qc.draw` is the input; an
`Except.error` result would mean an exception escaped to the caller. -/
def draw_circuit_text (drawResult : Except Err String) : Except Err String :=
  match drawResult with
  | Except.ok s => Except.ok s
  | Except.error _ => Except.ok placeholderDrawing

/-- The string actually displayed by `st.code(draw_circuit_text(qc), ...)`. -/
def drawnText (drawResult : Except Err String) : String :=
  match draw_circuit_text drawResult with
  | Except.ok s => s
  | Except.error _ => placeholderDrawing

/-- Outcomes of the external library calls one `run_and_plot_counts`
invocation performs: `qc.draw`, the transpile/run/get_counts simulation
phase, the `plot_histogram`+`st.pyplot` rendering phase, `Path.mkdir`,
and `Figure.savefig`. -/
structure Env where
  draw : Except Err String
  sim : Except Err Counts
  render : Except Err Unit
  mkdir : Except Err Unit
  savefig : Except Err Unit

/-- `run_and_plot_counts(qc, shots, title, base_name)`.  The simulation
phase (`transpile`, `sim.run(...).result()`, `result.get_counts()`) runs
OUTSIDE any `try`; then `st.code(draw_circuit_text(qc))`; then the
histogram block `try: fig = plot_histogram(...); st.pyplot(fig);
if SAVE_PNGS and base_name: save_fig(fig, base_name) else: plt.close(fig)
except Exception as e: st.warning(...)`.  Returns the counts together with
the file list and events, or `Except.error` when an exception escapes. -/
def run_and_plot_counts (env : Env) (savePngs : Bool) (outdir stamp : String)
    (baseName : Option String) (files : List String) :
    Except Err (Counts × List String × List Event) :=
  match env.sim with
  | Except.error e => Except.error e
  | Except.ok counts =>
    let ev0 := [Event.showCode (drawnText env.draw)]
    match env.render with
    | Except.error e => Except.ok (counts, files, ev0 ++ [Event.warn e])
    | Except.ok _ =>
      if savePngs && truthy baseName then
        match save_fig env.mkdir env.savefig outdir stamp (baseName.getD "") files with
        | Except.ok r => Except.ok (counts, r.1, ev0 ++ [Event.pyplot] ++ r.2)
        | Except.error e => Except.ok (counts, files, ev0 ++ [Event.pyplot, Event.warn e])
      else
        Except.ok (counts, files, ev0 ++ [Event.pyplot, Event.closeFig])

/-- Tab 5's proportion report: `total = sum(counts.values()) or 1` —
Python `or` replaces a zero (falsy) sum by `1`. -/
def total (counts : Counts) : Nat :=
  let s := (counts.map Prod.snd).sum
  if s = 0 then 1 else s

/-- `counts.get('0', 0)` / `counts.get('1', 0)`. -/
def getCount (counts : Counts) (k : String) : Nat :=
  (counts.lookup k).getD 0

/-- `p0 = counts.get('0', 0) / total` (exact rational arithmetic). -/
def p0 (counts : Counts) : ℚ :=
  (getCount counts "0" : ℚ) / (total counts : ℚ)

/-- `p1 = counts.get('1', 0) / total`. -/
def p1 (counts : Counts) : ℚ :=
  (getCount counts "1" : ℚ) / (total counts : ℚ)

/-- The single-qubit gates the app applies: `qc.h`, `qc.p(θ)`, `qc.rz(θ)`,
`qc.sx`. -/
inductive Gate where
  | H : Gate
  | P : ℝ → Gate
  | RZ : ℝ → Gate
  | SX : Gate

/-- A circuit descriptor: the ordered gate list plus whether
`qc.measure_all()` was called. -/
structure Circuit where
  gates : List Gate
  measured : Bool

/-- Tab 1 (coin flip): `qc.h(0); qc.measure_all()`. -/
def build_p1 : Circuit := ⟨[Gate.H], true⟩

/-- Tab 2 (expectation values): `qc.h(0)` with no measurement. -/
def build_p2 : Circuit := ⟨[Gate.H], false⟩

/-- Tab 3 (double Hadamard): `qc.h(0); qc.h(0); qc.measure_all()`. -/
def build_p3 : Circuit := ⟨[Gate.H, Gate.H], true⟩

/-- Tab 4 (phase π): `qc.h(0); qc.p(math.pi, 0); qc.h(0); qc.measure_all()`. -/
noncomputable def build_p4 : Circuit := ⟨[Gate.H, Gate.P Real.pi, Gate.H], true⟩

/-- Tab 5 (tunable phase): `qc.h(0); qc.rz(phi, 0); qc.h(0); qc.measure_all()`. -/
def build_p5 (phi : ℝ) : Circuit := ⟨[Gate.H, Gate.RZ phi, Gate.H], true⟩

/-- Tab 6, state A: `qc_h.h(0)` with no measurement. -/
def build_p6_h : Circuit := ⟨[Gate.H], false⟩

/-- Tab 6, state B: `qc_sx.sx(0)` with no measurement. -/
def build_p6_sx : Circuit := ⟨[Gate.SX], false⟩

/-- How a built descriptor is consumed: submitted to the simulator for
counts, or handed to `Statevector.from_instruction`. -/
inductive Processing where
  | counts : Processing
  | statevec : Processing
  deriving DecidableEq

/-- `true` iff the descriptor is processed into a frequency-count result. -/
def Processing.isCounts : Processing → Bool
  | Processing.counts => true
  | Processing.statevec => false

/-- Every (descriptor, processing) pair the program produces: tabs 1, 3, 4
and 5 call `run_and_plot_counts` (simulator counts); tabs 2 and 6 call
`Statevector.from_instruction` (state vector). -/
noncomputable def programRuns (phi : ℝ) : List (Circuit × Processing) :=
  [(build_p1, Processing.counts),
   (build_p2, Processing.statevec),
   (build_p3, Processing.counts),
   (build_p4, Processing.counts),
   (build_p5 phi, Processing.counts),
   (build_p6_h, Processing.statevec),
   (build_p6_sx, Processing.statevec)]

/-- Inclusive integer range of a Streamlit `number_input`/`slider`. -/
structure NumRange where
  lo : Nat
  hi : Nat
  deriving DecidableEq

/-- Tab 1 `st.number_input("Shots", min_value=100, max_value=100000, ...)`. -/
def shots_input_p1 : NumRange := ⟨100, 100000⟩

/-- Tab 3 `st.number_input("Shots", min_value=100, max_value=100000, ...)`. -/
def shots_input_p3 : NumRange := ⟨100, 100000⟩

/-- Tab 4 `st.number_input("Shots", min_value=100, max_value=100000, ...)`. -/
def shots_input_p4 : NumRange := ⟨100, 100000⟩

/-- Tab 5 `st.number_input("Shots", min_value=100, max_value=200000, ...)`. -/
def shots_input_p5 : NumRange := ⟨100, 200000⟩

/-- Sidebar `st.slider("Shots (repeticiones por corrida)", 100, 50000, 1000, ...)`. -/
def default_shots_range : NumRange := ⟨100, 50000⟩

/-- Tab 5 φ slider lower bound: `min_value=0.0`. -/
def phi_slider_min : ℝ := 0

/-- Tab 5 φ slider upper bound: `max_value=float(2 * math.pi)`. -/
noncomputable def phi_slider_max : ℝ := 2 * Real.pi

/-- A Streamlit slider accepts every value between its bounds, both ends
included. -/
def sliderAccepts (lo hi v : ℝ) : Prop := lo ≤ v ∧ v ≤ hi

/-- The single-qubit state `|0⟩` as a pair of complex amplitudes. -/
def ket0 : ℂ × ℂ := (1, 0)

/-- The Hadamard gate on amplitude pairs:
`H (a, b) = ((a + b)/√2, (a − b)/√2)`. -/
noncomputable def H_amp (p : ℂ × ℂ) : ℂ × ℂ :=
  ((p.1 + p.2) / (Real.sqrt 2 : ℝ), (p.1 - p.2) / (Real.sqrt 2 : ℝ))

/-- Qiskit's `RZ(φ) = diag(e^{−iφ/2}, e^{iφ/2})` on amplitude pairs. -/
noncomputable def RZ_amp (phi : ℝ) (p : ℂ × ℂ) : ℂ × ℂ :=
  (Complex.exp (-((phi : ℂ) / 2) * Complex.I) * p.1,
   Complex.exp (((phi : ℂ) / 2) * Complex.I) * p.2)

/-- The state tab 5's circuit prepares before measurement:
`H · RZ(φ) · H` applied to `|0⟩`. -/
noncomputable def step5_state (phi : ℝ) : ℂ × ℂ :=
  H_amp (RZ_amp phi (H_amp ket0))

/-- Born probability of measuring `0`: squared amplitude of the `|0⟩`
component. -/
def prob0 (psi : ℂ × ℂ) : ℝ := Complex.normSq psi.1

/-- Born probability of measuring `1`. -/
def prob1 (psi : ℂ × ℂ) : ℝ := Complex.normSq psi.2

/-- The Pauli `Z` observable on amplitude pairs: `Z (a, b) = (a, −b)`. -/
def applyZ (p : ℂ × ℂ) : ℂ × ℂ := (p.1, -p.2)

/-- The Pauli `X` observable on amplitude pairs: `X (a, b) = (b, a)`. -/
def applyX (p : ℂ × ℂ) : ℂ × ℂ := (p.2, p.1)

/-- `float(np.real(psi.expectation_value(O)))`: the real part of
`⟨ψ|O|ψ⟩`. -/
def expVal (op : ℂ × ℂ → ℂ × ℂ) (psi : ℂ × ℂ) : ℝ :=
  ((starRingEnd ℂ) psi.1 * (op psi).1 + (starRingEnd ℂ) psi.2 * (op psi).2).re

/-- Tab 2's state: `Statevector.from_instruction` of the one-gate circuit
`qc.h(0)`, i.e. `H|0⟩`. -/
noncomputable def psi_plus : ℂ × ℂ := H_amp ket0

/-- `expZ = float(np.real(psi.expectation_value(Pauli("Z"))))`. -/
noncomputable def expZ : ℝ := expVal applyZ psi_plus

/-- `expX = float(np.real(psi.expectation_value(Pauli("X"))))`. -/
noncomputable def expX : ℝ := expVal applyX psi_plus

lemma sqrt_two_sq : ((Real.sqrt 2 : ℝ) : ℂ) * ((Real.sqrt 2 : ℝ) : ℂ) = 2 := by
  norm_cast
  exact Real.mul_self_sqrt (by norm_num)

lemma sqrt_two_ne_zero : ((Real.sqrt 2 : ℝ) : ℂ) ≠ 0 :=
  Complex.ofReal_ne_zero.mpr (ne_of_gt (Real.sqrt_pos.mpr (by norm_num)))

lemma sqrt_two_pow : ((Real.sqrt 2 : ℝ) : ℂ) ^ 2 = 2 := by
  rw [sq]
  exact sqrt_two_sq

lemma step5_state_eq (phi : ℝ) :
    step5_state phi = (Complex.cos (((phi / 2 : ℝ) : ℂ)), -(Complex.I * Complex.sin (((phi / 2 : ℝ) : ℂ)))) := by
  have hn := sqrt_two_ne_zero
  unfold step5_state H_amp RZ_amp ket0
  simp only [Prod.mk.injEq]
  constructor
  · rw [Complex.cos]
    push_cast
    field_simp
    ring_nf
    rw [sqrt_two_pow]
  · rw [Complex.sin]
    push_cast
    field_simp
    ring_nf
    rw [sqrt_two_pow, Complex.I_sq]
    ring

lemma psi_plus_eq :
    psi_plus = (((((Real.sqrt 2)⁻¹ : ℝ)) : ℂ), ((((Real.sqrt 2)⁻¹ : ℝ)) : ℂ)) := by
  unfold psi_plus H_amp ket0
  simp only [Prod.mk.injEq, add_zero, sub_zero]
  constructor <;>
    rw [Complex.ofReal_inv, inv_eq_one_div]

/-- C1: the tunable-phase circuit H·RZ(φ)·H applied to |0⟩ yields, for every
real angle φ (so in particular for every φ in [0, 2π)), squared amplitude
cos²(φ/2) on basis outcome 0 and sin²(φ/2) on basis outcome 1. -/
theorem step5_probabilities (phi : ℝ) :
    prob0 (step5_state phi) = Real.cos (phi / 2) ^ 2 ∧
    prob1 (step5_state phi) = Real.sin (phi / 2) ^ 2 := by
  unfold prob0 prob1
  rw [step5_state_eq]
  constructor
  · rw [← Complex.ofReal_cos, Complex.normSq_ofReal, sq]
  · rw [Complex.normSq_neg, Complex.normSq_mul, Complex.normSq_I, one_mul,
      ← Complex.ofReal_sin, Complex.normSq_ofReal, sq]

/-- C6: tab 2's expectation values, computed as the real part of ⟨ψ|O|ψ⟩
against the state H|0⟩ with no sampling, are exactly ⟨Z⟩ = 0 and ⟨X⟩ = 1,
hence within 1e-9 of 0.0 and 1.0 respectively. -/
theorem expectation_values :
    expZ = 0 ∧ expX = 1 ∧ |expZ - 0| ≤ 1e-9 ∧ |expX - 1| ≤ 1e-9 := by
  have h2 : Real.sqrt 2 * Real.sqrt 2 = 2 := Real.mul_self_sqrt (by norm_num)
  have hn : Real.sqrt 2 ≠ 0 := ne_of_gt (Real.sqrt_pos.mpr (by norm_num))
  have hZ : expZ = 0 := by
    unfold expZ expVal
    rw [psi_plus_eq]
    simp only [applyZ, Complex.conj_ofReal, ← Complex.ofReal_neg, ← Complex.ofReal_mul,
      ← Complex.ofReal_add, Complex.ofReal_re]
    ring
  have hX : expX = 1 := by
    unfold expX expVal
    rw [psi_plus_eq]
    simp only [applyX, Complex.conj_ofReal, ← Complex.ofReal_mul,
      ← Complex.ofReal_add, Complex.ofReal_re]
    field_simp
  refine ⟨hZ, hX, ?_, ?_⟩
  · rw [hZ]
    norm_num
  · rw [hX]
    norm_num

lemma save_fig_exists_ok (m sv : Except Err Unit) (d st b : String) (fs : List String) :
    ∃ r, save_fig m sv d st b fs = Except.ok r := by
  cases sv <;> exact ⟨_, rfl⟩

/-- C4: `save_fig` never lets a filesystem exception escape: whatever the
outcomes of `mkdir` and `savefig`, it returns normally, always closes the
figure, warns on a directory-creation failure, warns (and writes nothing)
on a save failure, and on success appends exactly the file
`{outdir}/{stamp}_{base}.png`. -/
theorem save_fig_no_raise (m sv : Except Err Unit) (d st b : String) (fs : List String) :
    ∃ fls evs, save_fig m sv d st b fs = Except.ok (fls, evs) ∧
      Event.closeFig ∈ evs ∧
      (∀ e, m = Except.error e → Event.warn e ∈ evs) ∧
      (∀ e, sv = Except.error e → Event.warn e ∈ evs ∧ fls = fs) ∧
      (sv = Except.ok () → fls = fs ++ [d ++ "/" ++ st ++ "_" ++ b ++ ".png"]) := by
  cases m <;> cases sv <;>
    exact ⟨_, _, rfl, by simp [ensure_outdir], by simp [ensure_outdir],
      by simp [ensure_outdir], by simp [ensure_outdir]⟩

theorem save_fig_no_raise_witness :
    ∃ fls evs,
      save_fig (Except.error "permiso denegado") (Except.error "disco lleno")
        "figuras" "20250101-120000" "p5_fase" [] = Except.ok (fls, evs) ∧
      Event.closeFig ∈ evs ∧
      Event.warn "permiso denegado" ∈ evs ∧ Event.warn "disco lleno" ∈ evs ∧ fls = [] := by
  obtain ⟨fls, evs, h1, h2, h3, h4, _⟩ :=
    save_fig_no_raise (Except.error "permiso denegado") (Except.error "disco lleno")
      "figuras" "20250101-120000" "p5_fase" []
  exact ⟨fls, evs, h1, h2, h3 _ rfl, (h4 _ rfl).1, (h4 _ rfl).2⟩

/-- C10: `draw_circuit_text` is total at its interface: for every outcome of
the underlying `qc.draw` call it returns normally, either with the drawn
text or with the fixed placeholder string; no exception reaches the
caller. -/
theorem draw_circuit_text_total (d : Except Err String) :
    ∃ s, draw_circuit_text d = Except.ok s ∧
      (d = Except.ok s ∨ s = placeholderDrawing) := by
  cases d with
  | ok s => exact ⟨s, rfl, Or.inl rfl⟩
  | error e => exact ⟨placeholderDrawing, rfl, Or.inr rfl⟩

/-- C2 counterexample: a failure in the simulation phase (here
`sim.run(...).result()` raising "fallo del simulador") is NOT caught by
`run_and_plot_counts` — it propagates out of the pipeline, refuting the
claim that no exception from the transpile/run/get_counts phase escapes. -/
theorem run_sim_failure_propagates :
    run_and_plot_counts
      ⟨Except.ok "qc", Except.error "fallo del simulador", Except.ok (),
        Except.ok (), Except.ok ()⟩
      true "figuras" "20250101-120000" (some "p5_fase") []
      = Except.error "fallo del simulador" := rfl

/-- C2 (amended): once the simulation phase has succeeded, no failure of
the rendering/persistence phase escapes `run_and_plot_counts`: the
histogram block is wrapped in `try`/`except` and any such failure is
reported as a warning, so the call returns normally. -/
theorem run_and_plot_counts_no_render_escape (env : Env) (sp : Bool)
    (d st : String) (bn : Option String) (fs : List String) (c : Counts)
    (hsim : env.sim = Except.ok c) :
    ∃ out, run_and_plot_counts env sp d st bn fs = Except.ok out := by
  unfold run_and_plot_counts
  rw [hsim]
  cases hr : env.render with
  | error e => exact ⟨_, rfl⟩
  | ok _ =>
    by_cases hb : (sp && truthy bn) = true
    · simp only [hb, if_true]
      obtain ⟨r, hrw⟩ := save_fig_exists_ok env.mkdir env.savefig d st (bn.getD "") fs
      rw [hrw]
      exact ⟨_, rfl⟩
    · simp only [Bool.not_eq_true] at hb
      simp only [hb, Bool.false_eq_true, if_false]
      exact ⟨_, rfl⟩

theorem run_and_plot_counts_no_render_escape_witness :
    (Env.mk (Except.ok "qc") (Except.ok [("0", 1)]) (Except.error "fallo al graficar")
        (Except.ok ()) (Except.ok ())).sim = Except.ok [("0", 1)] ∧
    ∃ out, run_and_plot_counts
        (Env.mk (Except.ok "qc") (Except.ok [("0", 1)]) (Except.error "fallo al graficar")
          (Except.ok ()) (Except.ok ()))
        true "figuras" "20250101-120000" (some "p1_moneda") [] = Except.ok out :=
  ⟨rfl, run_and_plot_counts_no_render_escape _ true "figuras" "20250101-120000"
    (some "p1_moneda") [] [("0", 1)] rfl⟩

/-- C3: persistence round-trip on a run whose simulation, rendering and
filesystem operations succeed: with the save toggle on and a non-empty
base-name, exactly one new file `{outdir}/{stamp}_{base}.png` is written;
with the toggle off, the file list is unchanged and the figure is
closed after display. -/
theorem persistence_roundtrip (env : Env) (d st b : String) (fs : List String)
    (c : Counts) (hsim : env.sim = Except.ok c) (hr : env.render = Except.ok ())
    (hm : env.mkdir = Except.ok ()) (hsv : env.savefig = Except.ok ())
    (hb : b ≠ "") :
    (∃ evs, run_and_plot_counts env true d st (some b) fs =
        Except.ok (c, fs ++ [d ++ "/" ++ st ++ "_" ++ b ++ ".png"], evs)) ∧
    (∃ evs, run_and_plot_counts env false d st (some b) fs =
        Except.ok (c, fs, evs) ∧ Event.closeFig ∈ evs) := by
  have htr : truthy (some b) = true := by
    simp [truthy, hb]
  constructor
  · unfold run_and_plot_counts save_fig
    simp only [hsim, hr, htr, hsv, Bool.and_self, if_true, Option.getD_some]
    exact ⟨_, rfl⟩
  · unfold run_and_plot_counts
    simp only [hsim, hr, Bool.false_and, Bool.false_eq_true, if_false]
    exact ⟨_, rfl, by simp⟩

theorem persistence_roundtrip_witness :
    ((Env.mk (Except.ok "qc") (Except.ok [("0", 4938), ("1", 15062)]) (Except.ok ())
        (Except.ok ()) (Except.ok ())).sim = Except.ok [("0", 4938), ("1", 15062)] ∧
      ("p5_fase" : String) ≠ "") ∧
    ((∃ evs, run_and_plot_counts
        (Env.mk (Except.ok "qc") (Except.ok [("0", 4938), ("1", 15062)]) (Except.ok ())
          (Except.ok ()) (Except.ok ()))
        true "figuras" "20250101-120000" (some "p5_fase") [] =
        Except.ok ([("0", 4938), ("1", 15062)],
          ["figuras" ++ "/" ++ "20250101-120000" ++ "_" ++ "p5_fase" ++ ".png"], evs)) ∧
     (∃ evs, run_and_plot_counts
        (Env.mk (Except.ok "qc") (Except.ok [("0", 4938), ("1", 15062)]) (Except.ok ())
          (Except.ok ()) (Except.ok ()))
        false "figuras" "20250101-120000" (some "p5_fase") [] =
        Except.ok ([("0", 4938), ("1", 15062)], [], evs) ∧ Event.closeFig ∈ evs)) :=
  ⟨⟨rfl, by decide⟩, by
    have h := persistence_roundtrip
      (Env.mk (Except.ok "qc") (Except.ok [("0", 4938), ("1", 15062)]) (Except.ok ())
        (Except.ok ()) (Except.ok ()))
      "figuras" "20250101-120000" "p5_fase" [] [("0", 4938), ("1", 15062)]
      rfl rfl rfl rfl (by decide)
    simpa using h⟩

/-- C5: every (descriptor, processing) pair the program produces respects
the invariant: the descriptor carries a measurement marker exactly when it
is processed into a frequency-count result, and it lacks one exactly when
it is processed into a state-vector result; no call site mixes both. -/
theorem measurement_processing_invariant (phi : ℝ) :
    ((programRuns phi).all fun cp => cp.1.measured == cp.2.isCounts) = true := rfl

/-- C7: the coin-flip builder produces exactly Hadamard then measurement,
the double-Hadamard builder exactly H, H then measurement, and the
pi-phase builder exactly H, phase rotation by π, H then measurement; each
builder is a pure function of its parameters, so the same parameters
always yield the same descriptor. -/
theorem circuit_builders :
    build_p1 = ⟨[Gate.H], true⟩ ∧
    build_p3 = ⟨[Gate.H, Gate.H], true⟩ ∧
    build_p4 = ⟨[Gate.H, Gate.P Real.pi, Gate.H], true⟩ ∧
    ∀ phi : ℝ, build_p5 phi = ⟨[Gate.H, Gate.RZ phi, Gate.H], true⟩ :=
  ⟨rfl, rfl, rfl, fun _ => rfl⟩

/-- C8 counterexample: the claim that every shot-count input accepts the
range [100, 200000] fails — tab 1's shots `number_input` has
`max_value=100000`, not 200000. -/
theorem shots_range_counterexample :
    shots_input_p1.hi = 100000 ∧ shots_input_p1.hi ≠ 200000 := by
  constructor
  · rfl
  · decide

/-- C8 (amended): only tab 5's shot input accepts [100, 200000]; the shot
inputs of tabs 1, 3 and 4 accept [100, 100000] and the sidebar default
slider [100, 50000]; the phase slider spans the closed interval [0, 2π],
2π itself included (a Streamlit slider includes its `max_value`). -/
theorem input_ranges :
    shots_input_p5 = ⟨100, 200000⟩ ∧
    shots_input_p1 = ⟨100, 100000⟩ ∧
    shots_input_p3 = ⟨100, 100000⟩ ∧
    shots_input_p4 = ⟨100, 100000⟩ ∧
    default_shots_range = ⟨100, 50000⟩ ∧
    phi_slider_min = 0 ∧ phi_slider_max = 2 * Real.pi ∧
    sliderAccepts phi_slider_min phi_slider_max (2 * Real.pi) := by
  refine ⟨rfl, rfl, rfl, rfl, rfl, rfl, rfl, ?_, le_refl _⟩
  unfold phi_slider_min
  positivity

/-- C9: the denominator of tab 5's observed-proportion report is the sum
of the counts with zero replaced by 1 (`sum(counts.values()) or 1`), so it
is positive for every counts mapping — in particular `total [] = 1` for an
empty mapping — and the proportion computation never divides by zero. -/
theorem total_never_zero :
    (∀ counts : Counts, 0 < total counts) ∧ total [] = 1 := by
  constructor
  · intro counts
    unfold total
    by_cases h : (counts.map Prod.snd).sum = 0
    · simp [h]
    · simp [h, Nat.pos_of_ne_zero h]
  · rfl

end SuperposApp
